import Mathlib

/-!
Verification development for a small HTTP-to-tool adapter server
(`src/server.ts` / `src/index.ts`): sixteen tools, each performing one
(or, for body measurements, two) GET requests against a fixed REST API,
with uniform date defaulting, JSON reshaping and error-to-envelope
conversion.  The definitions below are a shallow embedding of that
source: JavaScript values are modelled by `Json` (plus an explicit
`Option` for `undefined` results of member access), the `fetch` network
boundary by an oracle `Api`, the ambient clock by `Clock`, and each tool
handler by `runTool`, which also returns the trace of issued requests.
-/

/-- Model of a decoded JSON value (the result of `response.json()` or a
sub-value of it).  Numbers are modelled by `Int`: no claim depends on
fractional values. -/
inductive Json where
  | null : Json
  | bool : Bool → Json
  | num : Int → Json
  | str : String → Json
  | arr : List Json → Json
  | obj : List (String × Json) → Json

/-- JavaScript truthiness of a JSON value (`Boolean(v)`): `null`,
`false`, `0` and `""` are falsy; every array and object is truthy. -/
def Json.truthy : Json → Bool
  | .null => false
  | .bool b => b
  | .num n => n != 0
  | .str s => s != ""
  | .arr _ => true
  | .obj _ => true

/-- Member lookup on a JSON value, `v[k]`, where `none` models the
JavaScript `undefined` result: lookup on an object takes the last
binding of the key (as `JSON.parse` keeps the last duplicate), and any
non-object has no such member.  Lookup on `null` is NOT modelled here:
see `getFieldJS`, which raises the `TypeError` that member access on
`null` produces. -/
def Json.member : Json → String → Option Json
  | .obj l, k => (l.reverse).lookup k
  | _, _ => none

/-- Error raised by member access on `null` -/
def nullAccessMsg (k : String) : String :=
  "Cannot read properties of null reading " ++ k

/-- Exceptions that a tool handler can catch: the `Error` thrown by
`makeApiRequest` on a non-2xx response, a transport-level failure of
`fetch`, and the `TypeError` of member access on `null` during
reshaping. -/
inductive Exn where
  | fitbitApiError (status : Nat) (statusText : String)
  | networkError (msg : String)
  | typeError (msg : String)

/-- Message of a caught exception (`error.message`), used to build the
error envelope text `Error: ...`. -/
def Exn.message : Exn → String
  | .fitbitApiError status statusText =>
      "Fitbit API error: " ++ toString status ++ " " ++ statusText
  | .networkError m => m
  | .typeError m => m

/-- Member access `data[k]` with JavaScript semantics: raises a
`TypeError` when `data` is `null`, otherwise yields the member
(`none` = `undefined`). -/
def getFieldJS (data : Json) (k : String) : Except Exn (Option Json) :=
  match data with
  | .null => .error (.typeError (nullAccessMsg k))
  | d => .ok (d.member k)

/-- JavaScript `v || dflt` applied to a member-access result: the
default is taken when the member is `undefined` or falsy. -/
def jsOr (v : Option Json) (dflt : Json) : Json :=
  match v with
  | none => dflt
  | some x => if x.truthy then x else dflt

/-- Truthiness of an optional string (`if (period)` on a parameter that
is either absent or a string): absent and `""` are falsy. -/
def strTruthyOpt : Option String → Bool
  | none => false
  | some s => s != ""

/-- Decides whether `pat` is a prefix of `s` (as lists of characters). -/
def isPrefixList : List Char → List Char → Bool
  | [], _ => true
  | _ :: _, [] => false
  | a :: as, b :: bs => a == b && isPrefixList as bs

/-- Decides whether `pat` occurs as a contiguous substring of `s`. -/
def containsSub (pat : List Char) : List Char → Bool
  | [] => pat.isEmpty
  | c :: rest => isPrefixList pat (c :: rest) || containsSub pat rest

/-- String-level substring test, used to state "the path contains ...". -/
def strContains (s pat : String) : Bool :=
  containsSub pat.data s.data

/-- String-level suffix test, used to state "the path ends in ...". -/
def strEndsWith (s pat : String) : Bool :=
  isPrefixList pat.data.reverse s.data.reverse

/-- Ambient clock state at the moment of a tool invocation.  `nowISO` is
the value `new Date().toISOString()` would produce (an ISO-8601
timestamp, always rendered in UTC with a `Z` suffix); `localDate` is
today's calendar date in the host's LOCAL time zone in `YYYY-MM-DD`
form.  The source only ever reads `nowISO`; `localDate` is carried so
that statements about "the host's local calendar date" can be made and
compared with what the code does.  The two fields describe one instant,
so they may denote different calendar days when the host's zone is not
UTC. -/
structure Clock where
  nowISO : String
  localDate : String

/-- Characters before the first occurrence of `t` (the whole list when
`t` does not occur). -/
def takeUntilChar : List Char → Char → List Char
  | [], _ => []
  | c :: rest, t => if c == t then [] else c :: takeUntilChar rest t

/-- Date portion of an ISO-8601 timestamp: `split("T")[0]`, everything
before the first `T`. -/
def isoDatePart (s : String) : String :=
  String.mk (takeUntilChar s.data 'T')

/-- Embedding of `formatDate`.  The source guard is `if (date) return
date;` — a JavaScript truthiness check — so a TRUTHY (present,
non-empty) date is returned unchanged, while an absent date AND a
present empty string (falsy) are replaced by
`new Date().toISOString().split("T")[0]`, the date portion of the UTC
timestamp. -/
def formatDate (clock : Clock) (date : Option String) : String :=
  if strTruthyOpt date then date.getD ""
  else isoDatePart clock.nowISO

/-- Date portion of the clock's UTC timestamp (what
`toISOString().split("T")[0]` yields). -/
def utcToday (clock : Clock) : String :=
  isoDatePart clock.nowISO

/-- Base URL constant of the upstream API (`baseUrl` in the source). -/
def baseUrl : String := "https://api.fitbit.com/1"

/-- An outbound HTTP request as the adapter builds it: the full URL and
the attached headers. -/
structure Request where
  url : String
  headers : List (String × String)
deriving DecidableEq

/-- Outcome of one `fetch` at the network boundary: either an HTTP
response (status, status text, decoded JSON body) or a transport
failure. -/
inductive FetchOutcome where
  | response (status : Nat) (statusText : String) (body : Json)
  | networkFail (msg : String)

/-- Network oracle: what `fetch` returns for each URL during the
invocation under consideration. -/
abbrev Api := String → FetchOutcome

/-- Request construction inside `makeApiRequest`: the URL is the base
URL followed by the endpoint, and the two headers are the bearer
authorization built from the process-wide token and
`Accept: application/json`. -/
def buildRequest (token endpoint : String) : Request :=
  { url := baseUrl ++ endpoint
  , headers :=
      [ ("Authorization", "Bearer " ++ token)
      , ("Accept", "application/json") ] }

/-- Embedding of `makeApiRequest`: builds the request, performs the
fetch, and either returns the decoded body (2xx), throws the
`Fitbit API error` with status and status text (non-2xx,
`!response.ok`), or rethrows the transport failure.  The built request
is returned alongside so that invocation traces can be observed. -/
def makeApiRequest (token : String) (api : Api) (endpoint : String) :
    Except Exn Json × Request :=
  match api (buildRequest token endpoint).url with
  | .networkFail m => (.error (.networkError m), buildRequest token endpoint)
  | .response status statusText body =>
      if 200 ≤ status ∧ status ≤ 299 then (.ok body, buildRequest token endpoint)
      else (.error (.fitbitApiError status statusText), buildRequest token endpoint)

/-- Result of `makeApiRequest` without the request record, for stating
hypotheses about individual upstream calls. -/
def apiCall (token : String) (api : Api) (endpoint : String) :
    Except Exn Json :=
  (makeApiRequest token api endpoint).1

mutual

/-- Serialization of a JSON value used to fill the success envelope's
text block (`JSON.stringify(payload, null, 2)` in the source; the exact
whitespace of the rendering is immaterial to every claim, which compare
payloads, so a compact rendering is used). -/
def Json.render : Json → String
  | .null => "null"
  | .bool true => "true"
  | .bool false => "false"
  | .num n => toString n
  | .str s => "\x22" ++ s ++ "\x22"
  | .arr l => "[" ++ Json.renderArr l ++ "]"
  | .obj l => "\x7b" ++ Json.renderObj l ++ "\x7d"

def Json.renderArr : List Json → String
  | [] => ""
  | [v] => Json.render v
  | v :: rest => Json.render v ++ "," ++ Json.renderArr rest

def Json.renderObj : List (String × Json) → String
  | [] => ""
  | [(k, v)] => "\x22" ++ k ++ "\x22:" ++ Json.render v
  | (k, v) :: rest =>
      "\x22" ++ k ++ "\x22:" ++ Json.render v ++ "," ++ Json.renderObj rest

end

/-- One block of a response envelope's `content` array. -/
structure ContentBlock where
  type : String
  text : String

/-- Protocol-level response envelope: the `content` array and the
`isError` flag (absent in the source on success, modelled as `false`). -/
structure Envelope where
  content : List ContentBlock
  isError : Bool

/-- Success envelope: one `text` block holding the serialized payload. -/
def okEnvelope (payload : Json) : Envelope :=
  { content := [⟨"text", payload.render⟩], isError := false }

/-- Error envelope produced by every handler's `catch` branch: one
`text` block `Error: ` followed by the caught error's message, and
`isError: true`. -/
def errEnvelope (e : Exn) : Envelope :=
  { content := [⟨"text", "Error: " ++ e.message⟩], isError := true }

/-- Parameters of a tool invocation after schema validation: both
declared parameters are optional strings (tools without a `period`
parameter simply never read it, and unknown extra parameters are
dropped by the schema layer before the handler runs). -/
structure Args where
  date : Option String
  period : Option String

/-- Names of the sixteen registered tools. -/
inductive Tool where
  | getUserProfile
  | getActivities
  | getSleepLogs
  | getHeartRate
  | getSteps
  | getBodyMeasurements
  | getFoodLogs
  | getWaterLogs
  | getLifetimeStats
  | getUserSettings
  | getFloorsClimbed
  | getDistance
  | getCalories
  | getActiveZoneMinutes
  | getDevices
  | getBadges
deriving DecidableEq

/-- Endpoint of the activities tool. -/
def activitiesEndpoint (fd : String) : String :=
  "/user/-/activities/date/" ++ fd ++ ".json"

/-- Endpoint of the sleep-logs tool. -/
def sleepEndpoint (fd : String) : String :=
  "/user/-/sleep/date/" ++ fd ++ ".json"

/-- Endpoint of the food-logs tool. -/
def foodEndpoint (fd : String) : String :=
  "/user/-/foods/log/date/" ++ fd ++ ".json"

/-- Endpoint of the water-logs tool. -/
def waterEndpoint (fd : String) : String :=
  "/user/-/foods/log/water/date/" ++ fd ++ ".json"

/-- Endpoint template shared by the six date+period activity tools:
`if (period)` (truthy check) the path carries the supplied period,
otherwise the fixed default segment `1d`. -/
def periodPath (base fd : String) (period : Option String) : String :=
  if strTruthyOpt period then
    base ++ fd ++ "/" ++ period.getD "" ++ ".json"
  else
    base ++ fd ++ "/1d.json"

/-- Endpoint template of the two body-log requests (`kind` is `weight`
or `fat`): with a truthy period the path carries it; with no (or an
empty) period the path is the date-only form, with NO period segment. -/
def bodyPath (kind fd : String) (period : Option String) : String :=
  if strTruthyOpt period then
    "/user/-/body/log/" ++ kind ++ "/date/" ++ fd ++ "/" ++ period.getD "" ++ ".json"
  else
    "/user/-/body/log/" ++ kind ++ "/date/" ++ fd ++ ".json"

/-- Endpoint of the user-profile tool. -/
def profileEndpoint : String := "/user/-/profile.json"

/-- Endpoint of the lifetime-stats tool. -/
def lifetimeEndpoint : String := "/user/-/activities.json"

/-- Endpoint of the user-settings tool (the same profile path as
`profileEndpoint`, written separately in the source). -/
def settingsEndpoint : String := "/user/-/profile.json"

/-- Endpoint of the devices tool. -/
def devicesEndpoint : String := "/user/-/devices.json"

/-- Endpoint of the badges tool. -/
def badgesEndpoint : String := "/user/-/badges.json"

/-- Reshaping step shared by the date-bearing tools: builds
`(date, out1, out2)` where each extracted member defaults (JavaScript
`||`) to the given empty value; member access can only fail when the
decoded body is `null`. -/
def reshapeDated (fd k1 out1 : String) (d1 : Json) (k2 out2 : String)
    (d2 : Json) (data : Json) : Except Exn Json :=
  match getFieldJS data k1 with
  | .error e => .error e
  | .ok v1 =>
    match getFieldJS data k2 with
    | .error e => .error e
    | .ok v2 =>
        .ok (Json.obj
          [ ("date", Json.str fd)
          , (out1, jsOr v1 d1)
          , (out2, jsOr v2 d2) ])

/-- Reshaping of the lifetime-stats tool: `lifetime` and `best`, each
defaulting to an empty object, with no date field. -/
def reshapeLifetime (data : Json) : Except Exn Json :=
  match getFieldJS data "lifetime" with
  | .error e => .error e
  | .ok v1 =>
    match getFieldJS data "best" with
    | .error e => .error e
    | .ok v2 =>
        .ok (Json.obj
          [ ("lifetime", jsOr v1 (Json.obj []))
          , ("best", jsOr v2 (Json.obj [])) ])

/-- Reshaping of the user-settings tool: the `user` member alone,
defaulting to an empty object. -/
def reshapeUser (data : Json) : Except Exn Json :=
  match getFieldJS data "user" with
  | .error e => .error e
  | .ok v => .ok (Json.obj [("user", jsOr v (Json.obj []))])

/-- Merge step of the body-measurements tool: `(date, weight, fat)`
from the two decoded bodies, each list defaulting to empty. -/
def mergeBody (fd : String) (weightData fatData : Json) : Except Exn Json :=
  match getFieldJS weightData "weight" with
  | .error e => .error e
  | .ok w =>
    match getFieldJS fatData "fat" with
    | .error e => .error e
    | .ok f =>
        .ok (Json.obj
          [ ("date", Json.str fd)
          , ("weight", jsOr w (Json.arr []))
          , ("fat", jsOr f (Json.arr [])) ])

/-- Body of every single-request tool handler: one `makeApiRequest`,
then the tool's reshaping, inside the handler's `try`/`catch`; any
caught exception becomes the error envelope.  The second component is
the trace of issued requests. -/
def runSingle (token : String) (api : Api) (endpoint : String)
    (reshape : Json → Except Exn Json) : Envelope × List Request :=
  match apiCall token api endpoint with
  | .error e => (errEnvelope e, [buildRequest token endpoint])
  | .ok data =>
    match reshape data with
    | .error e => (errEnvelope e, [buildRequest token endpoint])
    | .ok payload => (okEnvelope payload, [buildRequest token endpoint])

/-- Body of the body-measurements handler: the weight-log request is
awaited first; only when it succeeds is the fat-log request issued;
both bodies are then merged.  Any caught exception — from either
request or from the merge — becomes the error envelope, with no
partial output. -/
def runBody (token : String) (api : Api) (fd : String)
    (period : Option String) : Envelope × List Request :=
  match apiCall token api (bodyPath "weight" fd period) with
  | .error e => (errEnvelope e, [buildRequest token (bodyPath "weight" fd period)])
  | .ok weightData =>
    match apiCall token api (bodyPath "fat" fd period) with
    | .error e =>
        (errEnvelope e,
         [buildRequest token (bodyPath "weight" fd period),
          buildRequest token (bodyPath "fat" fd period)])
    | .ok fatData =>
      match mergeBody fd weightData fatData with
      | .error e =>
          (errEnvelope e,
           [buildRequest token (bodyPath "weight" fd period),
            buildRequest token (bodyPath "fat" fd period)])
      | .ok payload =>
          (okEnvelope payload,
           [buildRequest token (bodyPath "weight" fd period),
            buildRequest token (bodyPath "fat" fd period)])

/-- Invocation of one registered tool: dispatches to the tool's handler
with the process-wide token, the ambient clock and the validated
arguments, against the network oracle `api`.  Returns the response
envelope and the trace of issued requests. -/
def runTool (token : String) (t : Tool) (clock : Clock) (args : Args)
    (api : Api) : Envelope × List Request :=
  match t with
  | .getUserProfile =>
      runSingle token api profileEndpoint (fun data => .ok data)
  | .getActivities =>
      runSingle token api (activitiesEndpoint (formatDate clock args.date))
        (reshapeDated (formatDate clock args.date)
          "activities" "activities" (Json.arr [])
          "summary" "summary" (Json.obj []))
  | .getSleepLogs =>
      runSingle token api (sleepEndpoint (formatDate clock args.date))
        (reshapeDated (formatDate clock args.date)
          "sleep" "sleep" (Json.arr [])
          "summary" "summary" (Json.obj []))
  | .getHeartRate =>
      runSingle token api
        (periodPath "/user/-/activities/heart/date/"
          (formatDate clock args.date) args.period)
        (reshapeDated (formatDate clock args.date)
          "activities-heart" "heartRate" (Json.arr [])
          "activities-heart-intraday" "intraday" (Json.obj []))
  | .getSteps =>
      runSingle token api
        (periodPath "/user/-/activities/steps/date/"
          (formatDate clock args.date) args.period)
        (reshapeDated (formatDate clock args.date)
          "activities-steps" "steps" (Json.arr [])
          "activities-steps-intraday" "intraday" (Json.obj []))
  | .getBodyMeasurements =>
      runBody token api (formatDate clock args.date) args.period
  | .getFoodLogs =>
      runSingle token api (foodEndpoint (formatDate clock args.date))
        (reshapeDated (formatDate clock args.date)
          "foods" "meals" (Json.arr [])
          "summary" "summary" (Json.obj []))
  | .getWaterLogs =>
      runSingle token api (waterEndpoint (formatDate clock args.date))
        (reshapeDated (formatDate clock args.date)
          "water" "water" (Json.arr [])
          "summary" "summary" (Json.obj []))
  | .getLifetimeStats =>
      runSingle token api lifetimeEndpoint reshapeLifetime
  | .getUserSettings =>
      runSingle token api settingsEndpoint reshapeUser
  | .getFloorsClimbed =>
      runSingle token api
        (periodPath "/user/-/activities/floors/date/"
          (formatDate clock args.date) args.period)
        (reshapeDated (formatDate clock args.date)
          "activities-floors" "floors" (Json.arr [])
          "activities-floors-intraday" "intraday" (Json.obj []))
  | .getDistance =>
      runSingle token api
        (periodPath "/user/-/activities/distance/date/"
          (formatDate clock args.date) args.period)
        (reshapeDated (formatDate clock args.date)
          "activities-distance" "distance" (Json.arr [])
          "activities-distance-intraday" "intraday" (Json.obj []))
  | .getCalories =>
      runSingle token api
        (periodPath "/user/-/activities/calories/date/"
          (formatDate clock args.date) args.period)
        (reshapeDated (formatDate clock args.date)
          "activities-calories" "calories" (Json.arr [])
          "activities-calories-intraday" "intraday" (Json.obj []))
  | .getActiveZoneMinutes =>
      runSingle token api
        (periodPath "/user/-/activities/active-zone-minutes/date/"
          (formatDate clock args.date) args.period)
        (reshapeDated (formatDate clock args.date)
          "activities-active-zone-minutes" "activeZones" (Json.arr [])
          "activities-active-zone-minutes-intraday" "intraday" (Json.obj []))
  | .getDevices =>
      runSingle token api devicesEndpoint (fun data => .ok data)
  | .getBadges =>
      runSingle token api badgesEndpoint (fun data => .ok data)

/-- Outcome of `initServer`: either the process terminates (exit code
and the diagnostic written to the error stream) before any tool is
registered, or the server starts with the resolved access token. -/
inductive InitResult where
  | fatal (exitCode : Nat) (stderrMsg : String)
  | started (token : String)
deriving DecidableEq

/-- Diagnostic printed to the error stream when no credential is found. -/
def tokenMissingMsg : String :=
  "Error: Fitbit access token is required. Provide it with --fitbit-token or FITBIT_ACCESS_TOKEN environment variable."

/-- Embedding of `initServer`'s startup credential resolution.  With a
configuration object (Smithery mode) its token is used unconditionally.
Without one (stdio mode) the token is `argv[fitbit-token] ||
process.env.FITBIT_ACCESS_TOKEN`, and if the result is still falsy the
process prints the diagnostic and exits with status 1 — before the
server object, and hence any tool, exists. -/
def initServer (config : Option String)
    (argvToken envToken : Option String) : InitResult :=
  match config with
  | some t => .started t
  | none =>
    let resolved := if strTruthyOpt argvToken then argvToken else envToken
    if strTruthyOpt resolved then .started (resolved.getD "")
    else .fatal 1 tokenMissingMsg

/-! Helper lemmas shared by the claim theorems. -/

/-- Concatenation of strings is associative. -/
theorem strAppendAssoc (a b c : String) : a ++ b ++ c = a ++ (b ++ c) := by
  rcases a with ⟨la⟩
  rcases b with ⟨lb⟩
  rcases c with ⟨lc⟩
  show String.mk ((la ++ lb) ++ lc) = String.mk (la ++ (lb ++ lc))
  rw [List.append_assoc]

/-- Character data of a concatenation. -/
theorem strDataAppend (a b : String) : (a ++ b).data = a.data ++ b.data := by
  rcases a with ⟨la⟩
  rcases b with ⟨lb⟩
  rfl

/-- Every list is a prefix of itself followed by anything. -/
theorem isPrefixListSelfAppend (l m : List Char) :
    isPrefixList l (l ++ m) = true := by
  induction l with
  | nil => rfl
  | cons c rest ih => simp [isPrefixList, ih]

/-- A concatenation ends with its right part. -/
theorem strEndsWithAppend (a b : String) : strEndsWith (a ++ b) b = true := by
  unfold strEndsWith
  rw [strDataAppend, List.reverse_append]
  exact isPrefixListSelfAppend _ _

/-- Member access succeeds on every non-null value. -/
theorem getFieldJSOk (data : Json) (k : String) (h : data ≠ Json.null) :
    getFieldJS data k = .ok (data.member k) := by
  cases data <;> simp_all [getFieldJS]

/-- Every single-request invocation resolves to an error or a success
envelope, with a one-element trace of the built request. -/
theorem runSingleSplit (token : String) (api : Api) (ep : String)
    (rs : Json → Except Exn Json) :
    (∃ e, runSingle token api ep rs = (errEnvelope e, [buildRequest token ep])) ∨
    (∃ p, runSingle token api ep rs = (okEnvelope p, [buildRequest token ep])) := by
  cases h : apiCall token api ep with
  | error e => exact .inl ⟨e, by simp [runSingle, h]⟩
  | ok data =>
    cases hr : rs data with
    | error e => exact .inl ⟨e, by simp [runSingle, h, hr]⟩
    | ok p => exact .inr ⟨p, by simp [runSingle, h, hr]⟩

/-- Request record returned by `makeApiRequest` is always the built
request for the given endpoint, whatever the network outcome. -/
theorem makeApiRequestSnd (token : String) (api : Api) (ep : String) :
    (makeApiRequest token api ep).2 = buildRequest token ep := by
  unfold makeApiRequest
  cases api (buildRequest token ep).url with
  | networkFail m => rfl
  | response s st b => by_cases h : 200 ≤ s ∧ s ≤ 299 <;> simp [h]

/-- Every body-measurements invocation resolves to an error or a
success envelope, and its trace is the weight request alone or the
weight request followed by the fat request. -/
theorem runBodySplit (token : String) (api : Api) (fd : String)
    (period : Option String) :
    ((∃ e, (runBody token api fd period).1 = errEnvelope e) ∨
     (∃ p, (runBody token api fd period).1 = okEnvelope p)) ∧
    ((runBody token api fd period).2 =
        [buildRequest token (bodyPath "weight" fd period)] ∨
     (runBody token api fd period).2 =
        [buildRequest token (bodyPath "weight" fd period),
         buildRequest token (bodyPath "fat" fd period)]) := by
  cases h1 : apiCall token api (bodyPath "weight" fd period) with
  | error e =>
    exact ⟨.inl ⟨e, by simp [runBody, h1]⟩, .inl (by simp [runBody, h1])⟩
  | ok weightData =>
    cases h2 : apiCall token api (bodyPath "fat" fd period) with
    | error e =>
      exact ⟨.inl ⟨e, by simp [runBody, h1, h2]⟩, .inr (by simp [runBody, h1, h2])⟩
    | ok fatData =>
      cases hm : mergeBody fd weightData fatData with
      | error e =>
        exact ⟨.inl ⟨e, by simp [runBody, h1, h2, hm]⟩,
               .inr (by simp [runBody, h1, h2, hm])⟩
      | ok p =>
        exact ⟨.inr ⟨p, by simp [runBody, h1, h2, hm]⟩,
               .inr (by simp [runBody, h1, h2, hm])⟩

/-- Every single-request invocation's envelope holds exactly one text
block. -/
theorem runSingleContent (token : String) (api : Api) (ep : String)
    (rs : Json → Except Exn Json) :
    ∃ s, (runSingle token api ep rs).1.content = [ContentBlock.mk "text" s] := by
  rcases runSingleSplit token api ep rs with ⟨e, h⟩ | ⟨p, h⟩
  · exact ⟨"Error: " ++ e.message, by rw [h]; rfl⟩
  · exact ⟨p.render, by rw [h]; rfl⟩

/-- Every body-measurements invocation's envelope holds exactly one
text block. -/
theorem runBodyContent (token : String) (api : Api) (fd : String)
    (period : Option String) :
    ∃ s, (runBody token api fd period).1.content = [ContentBlock.mk "text" s] := by
  obtain ⟨henv, -⟩ := runBodySplit token api fd period
  rcases henv with ⟨e, h⟩ | ⟨p, h⟩
  · exact ⟨"Error: " ++ e.message, by rw [h]; rfl⟩
  · exact ⟨p.render, by rw [h]; rfl⟩

/-- C1: for every registered tool and every invocation — whatever the
network oracle does (success, non-2xx status, transport failure) and
whatever the reshaping step does — the invocation resolves to a
well-formed envelope whose `content` array holds exactly one block of
type `text`.  `runTool` is a total function into `Envelope`, so no
exception passes the tool-invocation boundary to the hosting protocol
server. -/
theorem toolInvocationAlwaysWellFormedEnvelope (token : String) (t : Tool)
    (clock : Clock) (args : Args) (api : Api) :
    ∃ s, (runTool token t clock args api).1.content = [ContentBlock.mk "text" s] := by
  cases t <;> simp only [runTool] <;>
    first
      | exact runSingleContent _ _ _ _
      | exact runBodyContent _ _ _ _

/-- Upstream non-2xx response makes `makeApiRequest` throw the
`Fitbit API error` carrying status and status text. -/
theorem apiCallNon2xx (token ep : String) (s : Nat) (st : String) (b : Json)
    (h : ¬(200 ≤ s ∧ s ≤ 299)) :
    apiCall token (fun _ => .response s st b) ep =
      .error (.fitbitApiError s st) := by
  simp [apiCall, makeApiRequest, h]

/-- Single-request invocation against a non-2xx upstream yields the
error envelope for the thrown `Fitbit API error`. -/
theorem runSingleNon2xx (token ep : String) (rs : Json → Except Exn Json)
    (s : Nat) (st : String) (b : Json) (h : ¬(200 ≤ s ∧ s ≤ 299)) :
    runSingle token (fun _ => .response s st b) ep rs =
      (errEnvelope (.fitbitApiError s st), [buildRequest token ep]) := by
  simp [runSingle, apiCallNon2xx token ep s st b h]

/-- Body-measurements invocation against a non-2xx upstream yields the
error envelope for the thrown `Fitbit API error` (the first request
already fails). -/
theorem runBodyNon2xx (token fd : String) (period : Option String)
    (s : Nat) (st : String) (b : Json) (h : ¬(200 ≤ s ∧ s ≤ 299)) :
    runBody token (fun _ => .response s st b) fd period =
      (errEnvelope (.fitbitApiError s st),
       [buildRequest token (bodyPath "weight" fd period)]) := by
  simp [runBody, apiCallNon2xx token _ s st b h]

/-- C2: for every tool, an upstream response with a non-2xx status
yields an envelope with `isError: true` whose single text block is
exactly `Error: Fitbit API error: ` followed by the status code and
the status text (and hence begins with that prefix). -/
theorem non2xxYieldsFitbitApiErrorEnvelope (token : String) (t : Tool)
    (clock : Clock) (args : Args) (s : Nat) (st : String) (b : Json)
    (h : ¬(200 ≤ s ∧ s ≤ 299)) :
    (runTool token t clock args (fun _ => .response s st b)).1 =
      { content :=
          [ContentBlock.mk "text"
            ("Error: " ++ ("Fitbit API error: " ++ toString s ++ " " ++ st))]
      , isError := true } := by
  cases t <;> simp only [runTool] <;>
    (first
      | rw [runSingleNon2xx _ _ _ _ _ _ h]
      | rw [runBodyNon2xx _ _ _ _ _ _ h]) <;> rfl

/-- Witness for C2 at a concrete invocation: status 401 Unauthorized on
the profile tool. -/
theorem non2xxYieldsFitbitApiErrorEnvelopeWitness :
    ¬(200 ≤ 401 ∧ 401 ≤ 299) ∧
    (runTool "tok" Tool.getUserProfile ⟨"2024-03-15T00:00:00.000Z", "2024-03-15"⟩
        ⟨none, none⟩ (fun _ => .response 401 "Unauthorized" (Json.obj []))).1 =
      { content :=
          [ContentBlock.mk "text"
            ("Error: " ++ ("Fitbit API error: " ++ toString 401 ++ " " ++ "Unauthorized"))]
      , isError := true } :=
  ⟨by decide,
   non2xxYieldsFitbitApiErrorEnvelope "tok" Tool.getUserProfile
     ⟨"2024-03-15T00:00:00.000Z", "2024-03-15"⟩ ⟨none, none⟩
     401 "Unauthorized" (Json.obj []) (by decide)⟩

/-- Trace of a single-request invocation is always exactly the one
built request, whatever the outcome. -/
theorem runSingleTrace (token : String) (api : Api) (ep : String)
    (rs : Json → Except Exn Json) :
    (runSingle token api ep rs).2 = [buildRequest token ep] := by
  rcases runSingleSplit token api ep rs with ⟨e, h⟩ | ⟨p, h⟩ <;> rw [h]

/-- Splitting off a shared suffix of a concatenation, for "path ends in
this segment" statements. -/
theorem existsDropSuffix (x y z : String) :
    ∃ pre, x ++ (y ++ z) = pre ++ z :=
  ⟨x ++ y, (strAppendAssoc x y z).symm⟩

/-- C3 counterexample: the body-measurements tool is period-accepting,
yet invoking it with `period` absent issues its two requests on the
date-only paths — neither issued endpoint contains the default period
segment `1d`, refuting the claim for this tool. -/
theorem defaultPeriodClaimFailsOnBodyMeasurements :
    ((runTool "tok" Tool.getBodyMeasurements
        ⟨"2024-03-15T00:00:00.000Z", "2024-03-15"⟩ ⟨some "2024-03-15", none⟩
        (fun _ => .response 200 "OK" (Json.obj []))).2.map Request.url =
      ["https://api.fitbit.com/1/user/-/body/log/weight/date/2024-03-15.json",
       "https://api.fitbit.com/1/user/-/body/log/fat/date/2024-03-15.json"]) ∧
    strContains
      "https://api.fitbit.com/1/user/-/body/log/weight/date/2024-03-15.json"
      "1d" = false ∧
    strContains
      "https://api.fitbit.com/1/user/-/body/log/fat/date/2024-03-15.json"
      "1d" = false := by
  refine ⟨by decide, by decide, by decide⟩

/-- C3 amended: with `period` absent, each of the six date+period
activity tools issues its one request on a path ending in the default
period segment `/1d.json`, while the body-measurements tool issues its
requests on the date-only weight/fat paths, whose URLs end in the date
followed directly by `.json` (right after a `/date/` segment) with no
period segment at all. -/
theorem defaultPeriodAmended (token : String) (clock : Clock) (args : Args)
    (api : Api) (h : args.period = none) :
    (∀ t, t ∈ [Tool.getHeartRate, Tool.getSteps, Tool.getFloorsClimbed,
               Tool.getDistance, Tool.getCalories, Tool.getActiveZoneMinutes] →
       ∀ req ∈ (runTool token t clock args api).2,
         ∃ pre, req.url = pre ++ "/1d.json") ∧
    (∀ req ∈ (runTool token Tool.getBodyMeasurements clock args api).2,
       ∃ pre, req.url = pre ++ (formatDate clock args.date ++ ".json") ∧
         strEndsWith pre "/date/" = true) := by
  constructor
  · intro t ht req hreq
    fin_cases ht <;>
      simp only [runTool, runSingleTrace, List.mem_singleton] at hreq <;>
      subst hreq <;>
      simp only [buildRequest, periodPath, h, strTruthyOpt, if_neg] <;>
      exact existsDropSuffix _ _ _
  · intro req hreq
    obtain ⟨-, htr⟩ := runBodySplit token api (formatDate clock args.date) args.period
    simp only [runTool] at hreq
    rcases htr with htr | htr <;> rw [htr] at hreq <;>
      simp only [List.mem_singleton, List.mem_cons, List.not_mem_nil, or_false] at hreq
    · subst hreq
      refine ⟨(baseUrl ++ ("/user/-/body/log/" ++ "weight")) ++ "/date/",
        ?_, strEndsWithAppend _ _⟩
      simp [buildRequest, bodyPath, h, strTruthyOpt, strAppendAssoc]
    · rcases hreq with hreq | hreq <;> subst hreq
      · refine ⟨(baseUrl ++ ("/user/-/body/log/" ++ "weight")) ++ "/date/",
          ?_, strEndsWithAppend _ _⟩
        simp [buildRequest, bodyPath, h, strTruthyOpt, strAppendAssoc]
      · refine ⟨(baseUrl ++ ("/user/-/body/log/" ++ "fat")) ++ "/date/",
          ?_, strEndsWithAppend _ _⟩
        simp [buildRequest, bodyPath, h, strTruthyOpt, strAppendAssoc]

/-- C3 witness: at a concrete invocation of the heart-rate tool with
period absent, the issued URL ends in the default segment `/1d.json`. -/
theorem defaultPeriodAmendedWitness :
    (Args.period ⟨some "2024-03-15", none⟩ = none) ∧
    ∃ pre, (buildRequest "tok"
      "/user/-/activities/heart/date/2024-03-15/1d.json").url = pre ++ "/1d.json" :=
  ⟨rfl,
   (defaultPeriodAmended "tok" ⟨"2024-03-15T00:00:00.000Z", "2024-03-15"⟩
      ⟨some "2024-03-15", none⟩ (fun _ => .response 200 "OK" (Json.obj [])) rfl).1
     Tool.getHeartRate (by decide)
     (buildRequest "tok" "/user/-/activities/heart/date/2024-03-15/1d.json")
     (by decide)⟩

/-- Equation for `formatDate` on an absent date. -/
theorem formatDateNone (clock : Clock) : formatDate clock none = utcToday clock := rfl

/-- Decomposition of a date-only endpoint URL around its date value. -/
theorem endpointDateDecomp (token L u J : String)
    (h : strEndsWith (baseUrl ++ L) "/date/" = true) :
    ∃ pre suf, (buildRequest token ((L ++ u) ++ J)).url = (pre ++ u) ++ suf ∧
      strEndsWith pre "/date/" = true :=
  ⟨baseUrl ++ L, J, by simp [buildRequest, strAppendAssoc], h⟩

/-- Decomposition of a date+period endpoint URL around its date value. -/
theorem endpointDatePeriodDecomp (token L u p J : String)
    (h : strEndsWith (baseUrl ++ L) "/date/" = true) :
    ∃ pre suf, (buildRequest token ((((L ++ u) ++ "/") ++ p) ++ J)).url =
      (pre ++ u) ++ suf ∧ strEndsWith pre "/date/" = true :=
  ⟨baseUrl ++ L, ("/" ++ p) ++ J, by simp [buildRequest, strAppendAssoc], h⟩

/-- C4 counterexample: at the instant `2024-03-15T23:30:00.000Z` a host
in zone UTC+2 already has local calendar date `2024-03-16`; invoking
the activities tool with `date` absent issues the path carrying the
UTC date `2024-03-15` — `toISOString` always renders UTC — so the path
does NOT contain the date of the host's local calendar, refuting the
claim as stated. -/
theorem localDateClaimFailsOnNonUtcHost :
    ((runTool "tok" Tool.getActivities
        ⟨"2024-03-15T23:30:00.000Z", "2024-03-16"⟩ ⟨none, none⟩
        (fun _ => .response 200 "OK" (Json.obj []))).2.map Request.url =
      ["https://api.fitbit.com/1/user/-/activities/date/2024-03-15.json"]) ∧
    strContains "https://api.fitbit.com/1/user/-/activities/date/2024-03-15.json"
      (Clock.localDate ⟨"2024-03-15T23:30:00.000Z", "2024-03-16"⟩) = false :=
  ⟨by decide, by decide⟩

/-- Common decomposition: every date-accepting tool issues requests
whose URL contains, right after a `/date/` segment, exactly the value
produced by `formatDate` for the invocation. -/
theorem dateToolUrlDecomp (token : String) (clock : Clock)
    (args : Args) (api : Api) (t : Tool)
    (ht : t ∈ [Tool.getActivities, Tool.getSleepLogs, Tool.getHeartRate,
               Tool.getSteps, Tool.getBodyMeasurements, Tool.getFoodLogs,
               Tool.getWaterLogs, Tool.getFloorsClimbed, Tool.getDistance,
               Tool.getCalories, Tool.getActiveZoneMinutes]) :
    ∀ req ∈ (runTool token t clock args api).2,
      ∃ pre suf, req.url = (pre ++ formatDate clock args.date) ++ suf ∧
        strEndsWith pre "/date/" = true := by
  intro req hreq
  have hbody :
      ∀ req₁ ∈ (runBody token api (formatDate clock args.date) args.period).2,
        (req₁ = buildRequest token (bodyPath "weight" (formatDate clock args.date) args.period) ∨
         req₁ = buildRequest token (bodyPath "fat" (formatDate clock args.date) args.period)) := by
    intro req₁ h₁
    obtain ⟨-, htr⟩ := runBodySplit token api (formatDate clock args.date) args.period
    rcases htr with htr | htr <;> rw [htr] at h₁ <;> simp at h₁ <;> tauto
  fin_cases ht
  · simp only [runTool, runSingleTrace, List.mem_singleton] at hreq
    subst hreq
    simp only [activitiesEndpoint]
    exact endpointDateDecomp token _ _ _ (by decide)
  · simp only [runTool, runSingleTrace, List.mem_singleton] at hreq
    subst hreq
    simp only [sleepEndpoint]
    exact endpointDateDecomp token _ _ _ (by decide)
  · simp only [runTool, runSingleTrace, List.mem_singleton] at hreq
    subst hreq
    simp only [periodPath]
    split
    · exact endpointDatePeriodDecomp token "/user/-/activities/heart/date/" _ _ _ (by decide)
    · exact endpointDateDecomp token "/user/-/activities/heart/date/" _ _ (by decide)
  · simp only [runTool, runSingleTrace, List.mem_singleton] at hreq
    subst hreq
    simp only [periodPath]
    split
    · exact endpointDatePeriodDecomp token "/user/-/activities/steps/date/" _ _ _ (by decide)
    · exact endpointDateDecomp token "/user/-/activities/steps/date/" _ _ (by decide)
  · simp only [runTool] at hreq
    rcases hbody req hreq with h₁ | h₁ <;> subst h₁ <;>
      simp only [bodyPath] <;> split
    · exact endpointDatePeriodDecomp token
        (("/user/-/body/log/" ++ "weight") ++ "/date/") _ _ _ (by decide)
    · exact endpointDateDecomp token
        (("/user/-/body/log/" ++ "weight") ++ "/date/") _ _ (by decide)
    · exact endpointDatePeriodDecomp token
        (("/user/-/body/log/" ++ "fat") ++ "/date/") _ _ _ (by decide)
    · exact endpointDateDecomp token
        (("/user/-/body/log/" ++ "fat") ++ "/date/") _ _ (by decide)
  · simp only [runTool, runSingleTrace, List.mem_singleton] at hreq
    subst hreq
    simp only [foodEndpoint]
    exact endpointDateDecomp token _ _ _ (by decide)
  · simp only [runTool, runSingleTrace, List.mem_singleton] at hreq
    subst hreq
    simp only [waterEndpoint]
    exact endpointDateDecomp token _ _ _ (by decide)
  · simp only [runTool, runSingleTrace, List.mem_singleton] at hreq
    subst hreq
    simp only [periodPath]
    split
    · exact endpointDatePeriodDecomp token "/user/-/activities/floors/date/" _ _ _ (by decide)
    · exact endpointDateDecomp token "/user/-/activities/floors/date/" _ _ (by decide)
  · simp only [runTool, runSingleTrace, List.mem_singleton] at hreq
    subst hreq
    simp only [periodPath]
    split
    · exact endpointDatePeriodDecomp token "/user/-/activities/distance/date/" _ _ _ (by decide)
    · exact endpointDateDecomp token "/user/-/activities/distance/date/" _ _ (by decide)
  · simp only [runTool, runSingleTrace, List.mem_singleton] at hreq
    subst hreq
    simp only [periodPath]
    split
    · exact endpointDatePeriodDecomp token "/user/-/activities/calories/date/" _ _ _ (by decide)
    · exact endpointDateDecomp token "/user/-/activities/calories/date/" _ _ (by decide)
  · simp only [runTool, runSingleTrace, List.mem_singleton] at hreq
    subst hreq
    simp only [periodPath]
    split
    · exact endpointDatePeriodDecomp token
        "/user/-/activities/active-zone-minutes/date/" _ _ _ (by decide)
    · exact endpointDateDecomp token
        "/user/-/activities/active-zone-minutes/date/" _ _ (by decide)

/-- C4 amended: for every date-accepting tool, invoking with `date`
absent issues requests whose URL contains, right after a `/date/`
segment, the date portion of the ISO-8601 UTC timestamp at call time
(`toISOString().split("T")[0]`) — the UTC calendar date, which need not
be the host's local calendar date. -/
theorem absentDateUsesUtcIsoDate (token : String) (clock : Clock)
    (args : Args) (api : Api) (t : Tool)
    (ht : t ∈ [Tool.getActivities, Tool.getSleepLogs, Tool.getHeartRate,
               Tool.getSteps, Tool.getBodyMeasurements, Tool.getFoodLogs,
               Tool.getWaterLogs, Tool.getFloorsClimbed, Tool.getDistance,
               Tool.getCalories, Tool.getActiveZoneMinutes])
    (hd : args.date = none) :
    formatDate clock none = utcToday clock ∧
    ∀ req ∈ (runTool token t clock args api).2,
      ∃ pre suf, req.url = (pre ++ utcToday clock) ++ suf ∧
        strEndsWith pre "/date/" = true := by
  refine ⟨rfl, ?_⟩
  intro req hreq
  obtain ⟨pre, suf, h1, h2⟩ := dateToolUrlDecomp token clock args api t ht req hreq
  rw [hd, formatDateNone] at h1
  exact ⟨pre, suf, h1, h2⟩

/-- C4 witness: concrete invocation of the activities tool with date
absent at a fixed clock; the issued URL decomposes around the UTC date. -/
theorem absentDateUsesUtcIsoDateWitness :
    (Tool.getActivities ∈ [Tool.getActivities, Tool.getSleepLogs, Tool.getHeartRate,
        Tool.getSteps, Tool.getBodyMeasurements, Tool.getFoodLogs, Tool.getWaterLogs,
        Tool.getFloorsClimbed, Tool.getDistance, Tool.getCalories,
        Tool.getActiveZoneMinutes]) ∧
    (Args.date ⟨none, none⟩ = none) ∧
    (formatDate ⟨"2024-03-15T12:00:00.000Z", "2024-03-15"⟩ none =
       utcToday ⟨"2024-03-15T12:00:00.000Z", "2024-03-15"⟩ ∧
     ∀ req ∈ (runTool "tok" Tool.getActivities
         ⟨"2024-03-15T12:00:00.000Z", "2024-03-15"⟩ ⟨none, none⟩
         (fun _ => .response 200 "OK" (Json.obj []))).2,
       ∃ pre suf, req.url =
           (pre ++ utcToday ⟨"2024-03-15T12:00:00.000Z", "2024-03-15"⟩) ++ suf ∧
         strEndsWith pre "/date/" = true) :=
  ⟨by decide, rfl,
   absentDateUsesUtcIsoDate "tok" ⟨"2024-03-15T12:00:00.000Z", "2024-03-15"⟩
     ⟨none, none⟩ (fun _ => .response 200 "OK" (Json.obj []))
     Tool.getActivities (by decide) rfl⟩

/-- Equation for `formatDate` on a present, non-empty (truthy) date:
returned unchanged. -/
theorem formatDateSomeTruthy (clock : Clock) (d : String) (h : d ≠ "") :
    formatDate clock (some d) = d := by
  simp [formatDate, strTruthyOpt, h]

/-- C5 counterexample: a present but EMPTY date string is falsy for the
source's `if (date)` guard, so it is NOT passed through verbatim — the
invocation replaces it with today's UTC date, and the issued path
carries `2024-03-15` instead of the supplied empty segment, refuting
verbatim pass-through for every present date string. -/
theorem verbatimDateClaimFailsOnEmptyString :
    (formatDate ⟨"2024-03-15T00:00:00.000Z", "2024-03-15"⟩ (some "") =
      "2024-03-15") ∧
    ¬(formatDate ⟨"2024-03-15T00:00:00.000Z", "2024-03-15"⟩ (some "") = "") ∧
    ((runTool "tok" Tool.getActivities ⟨"2024-03-15T00:00:00.000Z", "2024-03-15"⟩
        ⟨some "", none⟩ (fun _ => .response 200 "OK" (Json.obj []))).2.map
          Request.url =
      ["https://api.fitbit.com/1/user/-/activities/date/2024-03-15.json"]) ∧
    ¬((runTool "tok" Tool.getActivities ⟨"2024-03-15T00:00:00.000Z", "2024-03-15"⟩
        ⟨some "", none⟩ (fun _ => .response 200 "OK" (Json.obj []))).2.map
          Request.url =
      ["https://api.fitbit.com/1/user/-/activities/date/.json"]) :=
  ⟨rfl, by decide, by decide, by decide⟩

/-- C5 amended: for every date-accepting tool, a caller-supplied
NON-EMPTY date string is passed into the requested URL verbatim —
`formatDate` performs no format or calendar validation and no
alteration of truthy strings, and the issued URL contains the string
exactly as supplied, right after a `/date/` segment; a supplied empty
string is falsy for the `if (date)` guard and is replaced by today's
UTC date, exactly as an absent date is. -/
theorem presentDatePassedVerbatim (token : String) (clock : Clock)
    (args : Args) (api : Api) (t : Tool) (d : String)
    (ht : t ∈ [Tool.getActivities, Tool.getSleepLogs, Tool.getHeartRate,
               Tool.getSteps, Tool.getBodyMeasurements, Tool.getFoodLogs,
               Tool.getWaterLogs, Tool.getFloorsClimbed, Tool.getDistance,
               Tool.getCalories, Tool.getActiveZoneMinutes])
    (hd : args.date = some d) (hne : d ≠ "") :
    formatDate clock (some d) = d ∧
    formatDate clock (some "") = utcToday clock ∧
    ∀ req ∈ (runTool token t clock args api).2,
      ∃ pre suf, req.url = (pre ++ d) ++ suf ∧
        strEndsWith pre "/date/" = true := by
  refine ⟨formatDateSomeTruthy clock d hne, rfl, ?_⟩
  intro req hreq
  obtain ⟨pre, suf, h1, h2⟩ := dateToolUrlDecomp token clock args api t ht req hreq
  rw [hd, formatDateSomeTruthy clock d hne] at h1
  exact ⟨pre, suf, h1, h2⟩

/-- C5 witness: a malformed (but non-empty) date string is embedded
verbatim in the issued URL of the sleep-logs tool. -/
theorem presentDatePassedVerbatimWitness :
    (Tool.getSleepLogs ∈ [Tool.getActivities, Tool.getSleepLogs, Tool.getHeartRate,
        Tool.getSteps, Tool.getBodyMeasurements, Tool.getFoodLogs, Tool.getWaterLogs,
        Tool.getFloorsClimbed, Tool.getDistance, Tool.getCalories,
        Tool.getActiveZoneMinutes]) ∧
    (Args.date ⟨some "not-a-date", none⟩ = some "not-a-date") ∧
    ("not-a-date" ≠ "") ∧
    (formatDate ⟨"2024-03-15T12:00:00.000Z", "2024-03-15"⟩ (some "not-a-date") =
       "not-a-date" ∧
     formatDate ⟨"2024-03-15T12:00:00.000Z", "2024-03-15"⟩ (some "") =
       utcToday ⟨"2024-03-15T12:00:00.000Z", "2024-03-15"⟩ ∧
     ∀ req ∈ (runTool "tok" Tool.getSleepLogs
         ⟨"2024-03-15T12:00:00.000Z", "2024-03-15"⟩ ⟨some "not-a-date", none⟩
         (fun _ => .response 200 "OK" (Json.obj []))).2,
       ∃ pre suf, req.url = (pre ++ "not-a-date") ++ suf ∧
         strEndsWith pre "/date/" = true) :=
  ⟨by decide, rfl, by decide,
   presentDatePassedVerbatim "tok" ⟨"2024-03-15T12:00:00.000Z", "2024-03-15"⟩
     ⟨some "not-a-date", none⟩ (fun _ => .response 200 "OK" (Json.obj []))
     Tool.getSleepLogs "not-a-date" (by decide) rfl (by decide)⟩

/-- C6 counterexample: when the first (weight-log) request fails — here
with a 500 — the invocation issues only ONE upstream request (the fat
request is never awaited), refuting "issues exactly two upstream
requests" for that invocation; the result is still a single error
envelope. -/
theorem bodyMeasurementsSingleRequestOnWeightFailure :
    ((runTool "tok" Tool.getBodyMeasurements
        ⟨"2024-03-15T00:00:00.000Z", "2024-03-15"⟩ ⟨some "2024-03-15", none⟩
        (fun _ => .response 500 "Internal Server Error" (Json.obj []))).2.map
          Request.url =
      ["https://api.fitbit.com/1/user/-/body/log/weight/date/2024-03-15.json"]) ∧
    ¬((runTool "tok" Tool.getBodyMeasurements
        ⟨"2024-03-15T00:00:00.000Z", "2024-03-15"⟩ ⟨some "2024-03-15", none⟩
        (fun _ => .response 500 "Internal Server Error" (Json.obj []))).2.length = 2) :=
  ⟨by decide, by decide⟩

/-- Merging the two body-log responses succeeds on any pair of non-null
bodies, each list field defaulting to empty. -/
theorem mergeBodyOk (fd : String) (wB fB : Json) (hw : wB ≠ Json.null)
    (hf : fB ≠ Json.null) :
    mergeBody fd wB fB =
      .ok (Json.obj
        [ ("date", Json.str fd)
        , ("weight", jsOr (wB.member "weight") (Json.arr []))
        , ("fat", jsOr (fB.member "fat") (Json.arr [])) ]) := by
  simp [mergeBody, getFieldJSOk _ _ hw, getFieldJSOk _ _ hf]

/-- C6 amended: one body-measurements invocation issues the weight-log
request first and, only when it succeeds, the fat-log request — so at
most two requests, and exactly two (weight then fat) whenever the
weight request completes; when both succeed with non-null bodies the
payload is the single merged `(date, weight, fat)` object; any failure
(either request, or the merge on a null body) yields a single error
envelope with no partial output. -/
theorem bodyMeasurementsSequentialRequests (token : String) (clock : Clock)
    (args : Args) (api : Api) :
    ((runTool token Tool.getBodyMeasurements clock args api).2 =
        [buildRequest token (bodyPath "weight" (formatDate clock args.date) args.period)] ∨
     (runTool token Tool.getBodyMeasurements clock args api).2 =
        [buildRequest token (bodyPath "weight" (formatDate clock args.date) args.period),
         buildRequest token (bodyPath "fat" (formatDate clock args.date) args.period)]) ∧
    (∀ e, apiCall token api (bodyPath "weight" (formatDate clock args.date) args.period) =
        .error e →
      runTool token Tool.getBodyMeasurements clock args api =
        (errEnvelope e,
         [buildRequest token (bodyPath "weight" (formatDate clock args.date) args.period)])) ∧
    (∀ wB, apiCall token api (bodyPath "weight" (formatDate clock args.date) args.period) =
        .ok wB →
      (runTool token Tool.getBodyMeasurements clock args api).2 =
        [buildRequest token (bodyPath "weight" (formatDate clock args.date) args.period),
         buildRequest token (bodyPath "fat" (formatDate clock args.date) args.period)]) ∧
    (∀ wB e, apiCall token api (bodyPath "weight" (formatDate clock args.date) args.period) =
        .ok wB →
      apiCall token api (bodyPath "fat" (formatDate clock args.date) args.period) =
        .error e →
      runTool token Tool.getBodyMeasurements clock args api =
        (errEnvelope e,
         [buildRequest token (bodyPath "weight" (formatDate clock args.date) args.period),
          buildRequest token (bodyPath "fat" (formatDate clock args.date) args.period)])) ∧
    (∀ wB fB, apiCall token api (bodyPath "weight" (formatDate clock args.date) args.period) =
        .ok wB →
      apiCall token api (bodyPath "fat" (formatDate clock args.date) args.period) =
        .ok fB →
      wB ≠ Json.null → fB ≠ Json.null →
      runTool token Tool.getBodyMeasurements clock args api =
        (okEnvelope (Json.obj
          [ ("date", Json.str (formatDate clock args.date))
          , ("weight", jsOr (wB.member "weight") (Json.arr []))
          , ("fat", jsOr (fB.member "fat") (Json.arr [])) ]),
         [buildRequest token (bodyPath "weight" (formatDate clock args.date) args.period),
          buildRequest token (bodyPath "fat" (formatDate clock args.date) args.period)])) := by
  refine ⟨?_, ?_, ?_, ?_, ?_⟩
  · simpa only [runTool] using
      (runBodySplit token api (formatDate clock args.date) args.period).2
  · intro e h
    simp [runTool, runBody, h]
  · intro wB h
    cases h2 : apiCall token api (bodyPath "fat" (formatDate clock args.date) args.period) with
    | error e => simp [runTool, runBody, h, h2]
    | ok fB =>
      cases hm : mergeBody (formatDate clock args.date) wB fB with
      | error e => simp [runTool, runBody, h, h2, hm]
      | ok p => simp [runTool, runBody, h, h2, hm]
  · intro wB e h1 h2
    simp [runTool, runBody, h1, h2]
  · intro wB fB h1 h2 hw hf
    simp [runTool, runBody, h1, h2, mergeBodyOk (formatDate clock args.date) wB fB hw hf]

/-- C6 witness: with both upstream requests succeeding on bodies
carrying `weight` and `fat` lists, the invocation issues exactly the
weight request then the fat request and merges both into one
`(date, weight, fat)` payload; the accompanying equations evaluate the
endpoint paths and the merged fields at this input. -/
theorem bodyMeasurementsSequentialRequestsWitness :
    (apiCall "tok"
        (fun _ => FetchOutcome.response 200 "OK" (Json.obj
          [("weight", Json.arr [Json.num 70]), ("fat", Json.arr [Json.num 20])]))
        (bodyPath "weight" "2024-03-15" none) =
      Except.ok (Json.obj
          [("weight", Json.arr [Json.num 70]), ("fat", Json.arr [Json.num 20])])) ∧
    (bodyPath "weight" "2024-03-15" none =
      "/user/-/body/log/weight/date/2024-03-15.json") ∧
    (bodyPath "fat" "2024-03-15" none =
      "/user/-/body/log/fat/date/2024-03-15.json") ∧
    (jsOr (Json.member (Json.obj
        [("weight", Json.arr [Json.num 70]), ("fat", Json.arr [Json.num 20])])
        "weight") (Json.arr []) = Json.arr [Json.num 70]) ∧
    (jsOr (Json.member (Json.obj
        [("weight", Json.arr [Json.num 70]), ("fat", Json.arr [Json.num 20])])
        "fat") (Json.arr []) = Json.arr [Json.num 20]) ∧
    runTool "tok" Tool.getBodyMeasurements ⟨"2024-03-15T00:00:00.000Z", "2024-03-15"⟩
        ⟨some "2024-03-15", none⟩
        (fun _ => FetchOutcome.response 200 "OK" (Json.obj
          [("weight", Json.arr [Json.num 70]), ("fat", Json.arr [Json.num 20])])) =
      (okEnvelope (Json.obj
        [ ("date", Json.str (formatDate ⟨"2024-03-15T00:00:00.000Z", "2024-03-15"⟩
            (some "2024-03-15")))
        , ("weight", jsOr (Json.member (Json.obj
            [("weight", Json.arr [Json.num 70]), ("fat", Json.arr [Json.num 20])])
            "weight") (Json.arr []))
        , ("fat", jsOr (Json.member (Json.obj
            [("weight", Json.arr [Json.num 70]), ("fat", Json.arr [Json.num 20])])
            "fat") (Json.arr [])) ]),
       [buildRequest "tok" (bodyPath "weight"
          (formatDate ⟨"2024-03-15T00:00:00.000Z", "2024-03-15"⟩ (some "2024-03-15")) none),
        buildRequest "tok" (bodyPath "fat"
          (formatDate ⟨"2024-03-15T00:00:00.000Z", "2024-03-15"⟩ (some "2024-03-15")) none)]) :=
  ⟨rfl, rfl, rfl, rfl, rfl,
   (bodyMeasurementsSequentialRequests "tok"
      ⟨"2024-03-15T00:00:00.000Z", "2024-03-15"⟩ ⟨some "2024-03-15", none⟩
      (fun _ => FetchOutcome.response 200 "OK" (Json.obj
        [("weight", Json.arr [Json.num 70]), ("fat", Json.arr [Json.num 20])]))).2.2.2.2
     _ _ rfl rfl (fun h => Json.noConfusion h) (fun h => Json.noConfusion h)⟩

/-- C7 counterexample: the decoded JSON body `null` is a valid upstream
body on which reshaping is NOT total — member access on `null` raises a
TypeError, so the invocation yields an error envelope instead of the
defaulted output, refuting "total on any decoded JSON body / never
raises an error". -/
theorem reshapingClaimFailsOnNullBody :
    (runTool "tok" Tool.getActivities ⟨"2024-03-15T00:00:00.000Z", "2024-03-15"⟩
        ⟨some "2024-03-15", none⟩ (fun _ => .response 200 "OK" Json.null)).1 =
      { content := [ContentBlock.mk "text"
          ("Error: " ++ ("Cannot read properties of null reading " ++ "activities"))]
      , isError := true } := rfl

/-- Fixed 200 response makes every upstream call return its body. -/
theorem apiCallFixedOk (token ep : String) (body : Json) :
    apiCall token (fun _ => .response 200 "OK" body) ep = .ok body := by
  unfold apiCall makeApiRequest
  simp

/-- Dated reshaping succeeds on every non-null body, each field
defaulting through `jsOr`. -/
theorem reshapeDatedOk (fd k1 o1 : String) (d1 : Json) (k2 o2 : String)
    (d2 : Json) (body : Json) (h : body ≠ Json.null) :
    reshapeDated fd k1 o1 d1 k2 o2 d2 body =
      .ok (Json.obj
        [ ("date", Json.str fd)
        , (o1, jsOr (body.member k1) d1)
        , (o2, jsOr (body.member k2) d2) ]) := by
  simp [reshapeDated, getFieldJSOk _ _ h]

/-- Lifetime-stats reshaping succeeds on every non-null body. -/
theorem reshapeLifetimeOk (body : Json) (h : body ≠ Json.null) :
    reshapeLifetime body =
      .ok (Json.obj
        [ ("lifetime", jsOr (body.member "lifetime") (Json.obj []))
        , ("best", jsOr (body.member "best") (Json.obj [])) ]) := by
  simp [reshapeLifetime, getFieldJSOk _ _ h]

/-- User-settings reshaping succeeds on every non-null body. -/
theorem reshapeUserOk (body : Json) (h : body ≠ Json.null) :
    reshapeUser body =
      .ok (Json.obj [("user", jsOr (body.member "user") (Json.obj []))]) := by
  simp [reshapeUser, getFieldJSOk _ _ h]

/-- C7 amended: reshaping is total on any decoded JSON body OTHER THAN
`null` (member access on `null` throws a TypeError that the invocation
boundary converts to an error envelope): for every tool and every
non-null body, the invocation succeeds; member access yields the
member, and a member that is absent or falsy defaults through `jsOr`
to the given empty value; in particular an upstream `\x7b\x7d` for the
activities (resp. heart-rate) tool yields exactly the payload with the
date and empty list/object fields. -/
theorem reshapeTotalOnNonNullBody (token : String) (t : Tool) (clock : Clock)
    (args : Args) (body : Json) (h : body ≠ Json.null) :
    ((runTool token t clock args (fun _ => .response 200 "OK" body)).1.isError = false) ∧
    (∀ k, getFieldJS body k = .ok (body.member k)) ∧
    (∀ k dflt, body.member k = none → jsOr (body.member k) dflt = dflt) ∧
    (∀ k v dflt, body.member k = some v → v.truthy = false →
       jsOr (body.member k) dflt = dflt) ∧
    ((runTool token Tool.getActivities clock args
        (fun _ => .response 200 "OK" (Json.obj []))).1 =
      okEnvelope (Json.obj
        [ ("date", Json.str (formatDate clock args.date))
        , ("activities", Json.arr []), ("summary", Json.obj []) ])) ∧
    ((runTool token Tool.getHeartRate clock args
        (fun _ => .response 200 "OK" (Json.obj []))).1 =
      okEnvelope (Json.obj
        [ ("date", Json.str (formatDate clock args.date))
        , ("heartRate", Json.arr []), ("intraday", Json.obj []) ])) := by
  refine ⟨?_, fun k => getFieldJSOk body k h, ?_, ?_, rfl, rfl⟩
  · cases t <;>
      simp [runTool, runSingle, runBody, apiCallFixedOk, okEnvelope,
        reshapeDatedOk, reshapeLifetimeOk, reshapeUserOk, mergeBodyOk, h]
  · intro k dflt hk
    simp [jsOr, hk]
  · intro k v dflt hk hv
    simp [jsOr, hk, hv]

/-- C7 witness: a non-null, non-object body (a string) flows through
the activities tool without error. -/
theorem reshapeTotalOnNonNullBodyWitness :
    (Json.str "hello" ≠ Json.null) ∧
    ((runTool "tok" Tool.getActivities ⟨"2024-03-15T00:00:00.000Z", "2024-03-15"⟩
        ⟨some "2024-03-15", none⟩
        (fun _ => .response 200 "OK" (Json.str "hello"))).1.isError = false) :=
  ⟨fun hh => Json.noConfusion hh,
   (reshapeTotalOnNonNullBody "tok" Tool.getActivities
      ⟨"2024-03-15T00:00:00.000Z", "2024-03-15"⟩ ⟨some "2024-03-15", none⟩
      (Json.str "hello") (fun hh => Json.noConfusion hh)).1⟩

/-- C8: every HTTP request issued by any tool carries the same
process-wide bearer credential in its Authorization header and an
`Accept: application/json` header — the headers of every request in
every invocation trace are exactly the two built from the startup
token, with no per-tool override. -/
theorem everyRequestCarriesBearerAndAccept (token : String) (t : Tool)
    (clock : Clock) (args : Args) (api : Api) :
    ∀ req ∈ (runTool token t clock args api).2,
      req.headers =
        [("Authorization", "Bearer " ++ token), ("Accept", "application/json")] := by
  intro req hreq
  have hb : ∀ fd period, req ∈ (runBody token api fd period).2 →
      req.headers =
        [("Authorization", "Bearer " ++ token), ("Accept", "application/json")] := by
    intro fd period h₁
    obtain ⟨-, htr⟩ := runBodySplit token api fd period
    rcases htr with htr | htr <;> rw [htr] at h₁ <;> simp at h₁
    · subst h₁; rfl
    · rcases h₁ with h₁ | h₁ <;> subst h₁ <;> rfl
  cases t <;>
    first
    | (simp only [runTool, runSingleTrace, List.mem_singleton] at hreq
       subst hreq
       rfl)
    | exact hb (formatDate clock args.date) args.period
        (by simpa only [runTool] using hreq)

/-- C8 witness: the one request of a concrete profile invocation
carries exactly the bearer and accept headers. -/
theorem everyRequestCarriesBearerAndAcceptWitness :
    (buildRequest "tok" "/user/-/profile.json" ∈
      (runTool "tok" Tool.getUserProfile ⟨"2024-03-15T00:00:00.000Z", "2024-03-15"⟩
        ⟨none, none⟩ (fun _ => .response 200 "OK" (Json.obj []))).2) ∧
    (buildRequest "tok" "/user/-/profile.json").headers =
      [("Authorization", "Bearer " ++ "tok"), ("Accept", "application/json")] :=
  ⟨by decide,
   everyRequestCarriesBearerAndAccept "tok" Tool.getUserProfile
     ⟨"2024-03-15T00:00:00.000Z", "2024-03-15"⟩ ⟨none, none⟩
     (fun _ => .response 200 "OK" (Json.obj []))
     (buildRequest "tok" "/user/-/profile.json") (by decide)⟩

/-- C9: in stdio mode (no configuration object) with neither the
command-line token nor the environment token present, startup resolves
to the fatal outcome: exit status 1 (non-zero) with the diagnostic on
the error stream, before any server — hence any tool — exists; and
this is the only fatal outcome: `initServer` is fatal only when the
configuration is absent and both token sources are falsy, always with
exit code 1 and that one diagnostic. -/
theorem missingCredentialFatal :
    (initServer none none none = InitResult.fatal 1 tokenMissingMsg) ∧
    (0 < 1) ∧
    (tokenMissingMsg ≠ "") ∧
    (∀ c a e code m, initServer c a e = InitResult.fatal code m →
      c = none ∧ strTruthyOpt a = false ∧ strTruthyOpt e = false ∧
        code = 1 ∧ m = tokenMissingMsg) := by
  refine ⟨rfl, by decide, by decide, ?_⟩
  intro c a e code m h
  cases c with
  | some t => exact absurd h (by simp [initServer])
  | none =>
    by_cases ha : strTruthyOpt a = true
    · exfalso
      simp [initServer, ha] at h
    · by_cases he : strTruthyOpt e = true
      · exfalso
        simp [initServer, ha, he] at h
      · simp [initServer, ha, he] at h
        exact ⟨rfl, by simpa using ha, by simpa using he, h.1.symm, h.2.symm⟩

/-- C9 witness: empty-string tokens are falsy, so startup with no
configuration and empty tokens is fatal; the reverse implication is
applied at that fatal instance. -/
theorem missingCredentialFatalWitness :
    (initServer none (some "") (some "") = InitResult.fatal 1 tokenMissingMsg) ∧
    ((none : Option String) = none ∧ strTruthyOpt (some "") = false ∧
      strTruthyOpt (some "") = false ∧ 1 = 1 ∧ tokenMissingMsg = tokenMissingMsg) :=
  ⟨rfl, missingCredentialFatal.2.2.2 none (some "") (some "") 1 tokenMissingMsg rfl⟩

/-- C10: the profile and settings tools issue a GET to the identical
endpoint path; on any fixed non-null upstream body the profile tool
returns it verbatim while the settings tool returns exactly the object
holding the body's `user` member (defaulting to an empty object) — the
settings output is the restriction of the profile result to its `user`
sub-field. -/
theorem settingsRestrictsProfile (token : String) (clock : Clock)
    (args : Args) (body : Json) (h : body ≠ Json.null) :
    (settingsEndpoint = profileEndpoint) ∧
    ((runTool token Tool.getUserProfile clock args
        (fun _ => .response 200 "OK" body)).2.map Request.url =
     (runTool token Tool.getUserSettings clock args
        (fun _ => .response 200 "OK" body)).2.map Request.url) ∧
    ((runTool token Tool.getUserProfile clock args
        (fun _ => .response 200 "OK" body)).1 = okEnvelope body) ∧
    ((runTool token Tool.getUserSettings clock args
        (fun _ => .response 200 "OK" body)).1 =
      okEnvelope (Json.obj [("user", jsOr (body.member "user") (Json.obj []))])) := by
  refine ⟨rfl, ?_, ?_, ?_⟩
  · simp [runTool, runSingleTrace, settingsEndpoint, profileEndpoint]
  · simp [runTool, runSingle, apiCallFixedOk]
  · simp [runTool, runSingle, apiCallFixedOk, reshapeUserOk body h]

/-- C10 witness: on a concrete profile body, the settings invocation
returns exactly the `user` sub-object. -/
theorem settingsRestrictsProfileWitness :
    (Json.obj [("user", Json.obj [("fullName", Json.str "Ada")]), ("x", Json.num 1)]
      ≠ Json.null) ∧
    ((runTool "tok" Tool.getUserSettings ⟨"2024-03-15T00:00:00.000Z", "2024-03-15"⟩
        ⟨none, none⟩ (fun _ => .response 200 "OK" (Json.obj
          [("user", Json.obj [("fullName", Json.str "Ada")]), ("x", Json.num 1)]))).1 =
      okEnvelope (Json.obj [("user", jsOr ((Json.obj
          [("user", Json.obj [("fullName", Json.str "Ada")]), ("x", Json.num 1)]).member
          "user") (Json.obj []))])) ∧
    (jsOr ((Json.obj [("user", Json.obj [("fullName", Json.str "Ada")]),
        ("x", Json.num 1)]).member "user") (Json.obj []) =
      Json.obj [("fullName", Json.str "Ada")]) :=
  ⟨fun hh => Json.noConfusion hh,
   (settingsRestrictsProfile "tok" ⟨"2024-03-15T00:00:00.000Z", "2024-03-15"⟩
      ⟨none, none⟩ (Json.obj [("user", Json.obj [("fullName", Json.str "Ada")]),
        ("x", Json.num 1)]) (fun hh => Json.noConfusion hh)).2.2.2,
   rfl⟩
